import Mathlib

/-!
Shallow embedding of the WhatsApp session orchestrator
(`WhatsAppManager`, `SupabaseService` and the `/api/send-bulk` route
handler) of the oxy-whatsapp-backend repository, together with theorems
checking the natural-language specification against it.

The registry `Map<string, WhatsAppConnection>` is embedded as an
association list; the Supabase tables `whatsapp_sessions` and
`whatsapp_messages` as lists of records; external effects (the Baileys
engine, profile lookups) as explicit parameters; scheduled
`setTimeout` reconnections as a pending list.
-/

namespace Oxy

/-- JS truthiness of an optional string field: defined (not null or
undefined) and not the empty string. -/
def jsTruthy : Option String → Bool
  | none => false
  | some s => s != ""

/-- Lookup in an association-list map (embeds `Map.get` / `Map.has`). -/
def mlookup (k : String) : List (String × α) → Option α
  | [] => none
  | p :: t => if p.1 = k then some p.2 else mlookup k t

/-- Replace-in-place of the matching key (embeds `Map.set`). -/
def mset (k : String) (v : α) (m : List (String × α)) : List (String × α) :=
  if (mlookup k m).isSome then
    m.map (fun p => if p.1 = k then (k, v) else p)
  else m ++ [(k, v)]

/-- Removal of a key (embeds `Map.delete`). -/
def mdel (k : String) (m : List (String × α)) : List (String × α) :=
  m.filter (fun p => p.1 != k)

theorem mlookup_append (k : String) (a b : List (String × α)) :
    mlookup k (a ++ b) =
      match mlookup k a with
      | some v => some v
      | none => mlookup k b := by
  induction a with
  | nil => simp [mlookup]
  | cons p t ih =>
    by_cases h : p.1 = k <;> simp [mlookup, h, ih]

theorem mlookup_map_replace_self (k : String) (v : α) (m : List (String × α))
    (h : (mlookup k m).isSome = true) :
    mlookup k (m.map (fun p => if p.1 = k then (k, v) else p)) = some v := by
  induction m with
  | nil => simp [mlookup] at h
  | cons p t ih =>
    by_cases hp : p.1 = k
    · simp [mlookup, hp]
    · simp only [mlookup, hp, if_false] at h
      simp [mlookup, hp, ih h]

theorem mlookup_map_replace (k q : String) (v : α) (m : List (String × α))
    (hne : q ≠ k) :
    mlookup q (m.map (fun p => if p.1 = k then (k, v) else p)) = mlookup q m := by
  induction m with
  | nil => rfl
  | cons p t ih =>
    by_cases hp : p.1 = k
    · have hkq : k ≠ q := fun hh => hne hh.symm
      have hpq : p.1 ≠ q := by rw [hp]; exact hkq
      simp [mlookup, hp, hkq, hpq, ih]
    · by_cases hq : p.1 = q <;> simp [mlookup, hp, hq, hne, ih]

theorem mlookup_mset_self (k : String) (v : α) (m : List (String × α)) :
    mlookup k (mset k v m) = some v := by
  unfold mset
  by_cases h : (mlookup k m).isSome
  · simp only [h, if_true]
    exact mlookup_map_replace_self k v m h
  · have hnone : mlookup k m = none := by
      cases hm : mlookup k m with
      | none => rfl
      | some w => rw [hm] at h; simp at h
    simp only [h]
    rw [if_neg (by simp), mlookup_append, hnone]
    simp [mlookup]

theorem mlookup_mset_ne (k q : String) (v : α) (m : List (String × α))
    (hne : q ≠ k) : mlookup q (mset k v m) = mlookup q m := by
  unfold mset
  by_cases h : (mlookup k m).isSome
  · simp only [h, if_true]
    exact mlookup_map_replace k q v m hne
  · simp only [h]
    rw [if_neg (by simp), mlookup_append]
    cases hm : mlookup q m with
    | some w => rfl
    | none =>
      have hkq : k ≠ q := fun hh => hne hh.symm
      simp [mlookup, hkq]

theorem mlookup_mdel_self (k : String) (m : List (String × α)) :
    mlookup k (mdel k m) = none := by
  induction m with
  | nil => rfl
  | cons p t ih =>
    by_cases hp : p.1 = k <;> simp [mdel, mlookup, hp, ih] <;>
      simpa [mdel] using ih

/-! ## Data model (from `SupabaseService.ts` and `WhatsAppManager.ts`) -/

/-- Row of the `profiles` table (`UserProfile`, the fields used). -/
structure UserProfile where
  id : String
deriving Repr, DecidableEq

/-- Row of the `whatsapp_sessions` table (`WhatsAppSession`, the fields
the orchestrator reads and writes). -/
structure DBSession where
  user_id : String
  is_connected : Bool
  phone_number : Option String
deriving Repr, DecidableEq

/-- Row of the `whatsapp_messages` table (`WhatsAppMessage`). -/
structure DBMessage where
  clinic_id : String
  patient_id : Option String
  phone : String
  message_type : String
  content : String
  message_status : String
  whatsapp_message_id : Option String
deriving Repr, DecidableEq

/-- The visible slice of the external Supabase store. -/
structure SupabaseState where
  sessions : List DBSession
  messages : List DBMessage
deriving Repr, DecidableEq

/-- `SupabaseService.updateMessageStatus`: update `message_status` of
every row whose `whatsapp_message_id` equals the given id. -/
def dbUpdateMessageStatus (db : SupabaseState) (messageId status : String) :
    SupabaseState :=
  { db with messages := db.messages.map (fun r =>
      if r.whatsapp_message_id = some messageId then
        { r with message_status := status }
      else r) }

/-- `SupabaseService.updateSessionStatus`: update the rows with the given
`user_id`; the phone number is written only when truthy. -/
def dbUpdateSessionStatus (db : SupabaseState) (u : String) (isConn : Bool)
    (phone : Option String) : SupabaseState :=
  { db with sessions := db.sessions.map (fun r =>
      if r.user_id = u then
        { r with is_connected := isConn,
                 phone_number := if jsTruthy phone then phone else r.phone_number }
      else r) }

/-- `SupabaseService.getSession`: the row with the given `user_id`. -/
def dbGetSession (db : SupabaseState) (u : String) : Option DBSession :=
  db.sessions.find? (fun r => r.user_id = u)

/-- `SupabaseService.saveMessage`: insert one message row. -/
def dbSaveMessage (db : SupabaseState) (m : DBMessage) : SupabaseState :=
  { db with messages := db.messages ++ [m] }

/-- In-memory per-tenant connection (`WhatsAppConnection`); `socketId`
identifies the underlying Baileys socket handle, fresh per
`makeWASocket` call. -/
structure WAConnection where
  socketId : Nat
  qr : Option String
  isConnected : Bool
  userId : String
  phoneNumber : Option String
deriving Repr, DecidableEq

/-- Outbound content object built by the routes (`{ text }` or media
with `caption`). -/
structure MsgContent where
  text : Option String := none
  caption : Option String := none
deriving Repr, DecidableEq

/-- State of the `WhatsAppManager` plus the slices of the outside world
it drives: the connections registry, the on-disk session directories
(`sessionsPath` entries), the Supabase store, a counter producing fresh
socket handles, the reconnections scheduled by `setTimeout` with a
5000 ms delay, and instrumentation traces of `connectUser` invocations
and `socket.sendMessage` calls. -/
structure ManagerState where
  connections : List (String × WAConnection)
  sessionFiles : List String
  db : SupabaseState
  nextSocketId : Nat
  pendingReconnects : List (String × Nat)
  connectCalls : List String
  sentLog : List (String × MsgContent)
deriving Repr, DecidableEq

/-- `DisconnectReason.loggedOut` in Baileys. -/
def loggedOutCode : Nat := 401

/-- The fixed reconnection delay passed to `setTimeout`. -/
def reconnectDelayMs : Nat := 5000

/-- `QRCode.toDataURL`: renders the raw pairing string as a data URL. -/
def toDataURL (q : String) : String := "data:image/png;base64," ++ q

/-- Result of `WhatsAppManager.connectUser`. -/
structure ConnectResult where
  success : Bool
  message : Option String := none
deriving Repr, DecidableEq

/-- The socket-construction tail of `connectUser`: build auth state
(creating the session directory), a fresh socket, register the
connection and return. `engineFail` models an exception thrown by the
engine before the connection is registered (the catch branch). -/
def buildConnection (engineFail : Bool) (s : ManagerState) (u : String) :
    ManagerState × ConnectResult :=
  if engineFail then
    (s, { success := false, message := some "Failed to connect" })
  else
    let conn : WAConnection :=
      { socketId := s.nextSocketId, qr := none, isConnected := false,
        userId := u, phoneNumber := none }
    ({ s with
        connections := mset u conn s.connections,
        nextSocketId := s.nextSocketId + 1,
        sessionFiles :=
          if s.sessionFiles.contains u then s.sessionFiles
          else s.sessionFiles ++ [u] },
     { success := true, message := some "Connection initiated" })

/-- `WhatsAppManager.connectUser`: an existing connection short-circuits
only when `isConnected`; otherwise a fresh socket is built and replaces
whatever was registered. The call is appended to `connectCalls`. -/
def connectUser (engineFail : Bool) (s : ManagerState) (u : String) :
    ManagerState × ConnectResult :=
  let s0 := { s with connectCalls := s.connectCalls ++ [u] }
  match mlookup u s.connections with
  | some c =>
    if c.isConnected then
      (s0, { success := true, message := some "Already connected" })
    else buildConnection engineFail s0 u
  | none => buildConnection engineFail s0 u

/-- `WhatsAppManager.clearUserSession`: remove the tenant's on-disk
session directory when present. -/
def clearUserSession (s : ManagerState) (u : String) : ManagerState :=
  { s with sessionFiles := s.sessionFiles.filter (fun x => x != u) }

/-- `WhatsAppManager.disconnectUser`: end and drop the registered
connection when present, mark the persisted status disconnected, remove
the credential directory, report success. -/
def disconnectUser (s : ManagerState) (u : String) : ManagerState × Bool :=
  let s1 :=
    match mlookup u s.connections with
    | some _ => { s with connections := mdel u s.connections }
    | none => s
  let s2 := { s1 with db := dbUpdateSessionStatus s1.db u false none }
  (clearUserSession s2 u, true)

/-- The `qr` branch of the `connection.update` handler: render the code
and store it on the connection when one is registered. -/
def applyQR (s : ManagerState) (u code : String) : ManagerState :=
  match mlookup u s.connections with
  | some c =>
      { s with connections := mset u { c with qr := some (toDataURL code) } s.connections }
  | none => s

/-- JS `id.split(\x27@\x27)[0]`: the prefix of the jid before the first
`@` (the whole string when absent). -/
def jidUser (j : String) : String :=
  String.mk (j.toList.takeWhile (fun ch => ch != '@'))

/-- The `connection === \x27open\x27` branch: mark connected, resolve the
phone number from `socket.user.id`, clear the stored QR, write the
persisted status through. -/
def applyOpen (s : ManagerState) (u : String) (user : Option String) :
    ManagerState :=
  let phone := user.map jidUser
  let s1 :=
    match mlookup u s.connections with
    | some c =>
        { s with
          connections :=
            mset u { c with isConnected := true, phoneNumber := phone, qr := none }
              s.connections }
    | none => s
  { s1 with db := dbUpdateSessionStatus s1.db u true phone }

/-- The `connection === \x27close\x27` branch: mark disconnected and write
status through; when the disconnect status code is `loggedOut` the
connection is dropped and the credential directory purged, otherwise one
reconnection is scheduled 5000 ms later. -/
def applyClose (s : ManagerState) (u : String) (statusCode : Option Nat) :
    ManagerState :=
  let s1 :=
    match mlookup u s.connections with
    | some c =>
        { s with connections := mset u { c with isConnected := false } s.connections }
    | none => s
  let s2 := { s1 with db := dbUpdateSessionStatus s1.db u false none }
  if statusCode = some loggedOutCode then
    clearUserSession { s2 with connections := mdel u s2.connections } u
  else
    { s2 with pendingReconnects := s2.pendingReconnects ++ [(u, reconnectDelayMs)] }

/-- Result of `WhatsAppManager.getConnectionStatus`. -/
structure StatusResult where
  connected : Bool
  phoneNumber : Option String := none
  qr : Option String := none
deriving Repr, DecidableEq

/-- `WhatsAppManager.getConnectionStatus`. -/
def getConnectionStatus (s : ManagerState) (u : String) : StatusResult :=
  match mlookup u s.connections with
  | none => { connected := false }
  | some c =>
      { connected := c.isConnected, phoneNumber := c.phoneNumber, qr := c.qr }

/-! ## Inbound message pipeline -/

/-- Inbound protocol payload (`message.message`): the envelope variants
the extractor inspects; any other payload shape has all five fields
absent. -/
structure MsgPayload where
  conversation : Option String := none
  extendedTextText : Option String := none
  imageCaption : Option String := none
  videoCaption : Option String := none
  documentCaption : Option String := none
deriving Repr, DecidableEq

/-- `WhatsAppManager.extractMessageContent`: first truthy field among
`conversation`, `extendedTextMessage.text`, `imageMessage.caption`,
`videoMessage.caption`, `documentMessage.caption`, else null. -/
def extractMessageContent (m : MsgPayload) : Option String :=
  if jsTruthy m.conversation then m.conversation
  else if jsTruthy m.extendedTextText then m.extendedTextText
  else if jsTruthy m.imageCaption then m.imageCaption
  else if jsTruthy m.videoCaption then m.videoCaption
  else if jsTruthy m.documentCaption then m.documentCaption
  else none

/-- Inbound Baileys message (`WAMessage`, the fields read). -/
structure WAMsg where
  message : Option MsgPayload
  fromMe : Bool
  remoteJid : String
  pushName : Option String
  keyId : Option String
deriving Repr, DecidableEq

/-- External lookups performed while handling an inbound message: the
tenant profile and the patient row id that `findOrCreatePatient`
resolves (null when the store fails). -/
structure InEnv where
  profile : Option UserProfile
  patientId : Option String

/-- `WhatsAppManager.handleIncomingMessage`: skip empty or own
messages, extract the text, drop the message when nothing is
extractable or the profile lookup fails, otherwise persist an
inbound/delivered Message Record keyed by the engine message id. -/
def handleIncomingMessage (env : InEnv) (s : ManagerState) (w : WAMsg) :
    ManagerState :=
  match w.message with
  | none => s
  | some payload =>
    if w.fromMe then s
    else
      match extractMessageContent payload with
      | none => s
      | some content =>
        let phoneNumber := jidUser w.remoteJid
        match env.profile with
        | none => s
        | some p =>
            { s with
              db := dbSaveMessage s.db
                { clinic_id := p.id, patient_id := env.patientId,
                  phone := phoneNumber, message_type := "inbound",
                  content := content, message_status := "delivered",
                  whatsapp_message_id := w.keyId } }

/-- One element of a `messages.update` event batch: the engine message
id and the optional new numeric status. -/
structure StatusUpdate where
  keyId : String
  status : Option Nat
deriving Repr, DecidableEq

/-- The `messages.update` handler: `if (msg.update?.status)` is a JS
truthiness check on the numeric status enum, so an absent status and
the falsy status 0 (ERROR) are both skipped; a non-zero status is
written (stringified) through to the store by engine id. -/
def applyMessagesUpdate (db : SupabaseState) (ups : List StatusUpdate) :
    SupabaseState :=
  ups.foldl (fun d m =>
    match m.status with
    | some st =>
        if st != 0 then dbUpdateMessageStatus d m.keyId (toString st) else d
    | none => d) db

/-! ## Outbound sends -/

/-- Result of `WhatsAppManager.sendMessage`. -/
structure SendResult where
  success : Bool
  messageId : Option String := none
  error : Option String := none
deriving Repr, DecidableEq

/-- External outcomes of one single-send: whether
`socket.sendMessage` succeeds, the engine-assigned message id it
returns, and the tenant profile lookup. -/
structure SendEnv where
  sendOk : Bool
  engineMsgId : Option String
  profile : Option UserProfile

/-- The `content.text || content.caption || \x27Media message\x27`
fallback chain of `sendMessage`. -/
def messageTextOf (c : MsgContent) : String :=
  if jsTruthy c.text then c.text.getD ""
  else if jsTruthy c.caption then c.caption.getD ""
  else "Media message"

/-- `WhatsAppManager.sendMessage`: require a connected session,
normalize the destination to a full jid, invoke the socket send
primitive, then (when the profile lookup succeeds) persist an
outbound/sent Message Record carrying the engine message id; return
success with that id. -/
def sendMessage (env : SendEnv) (s : ManagerState) (u dest : String)
    (content : MsgContent) : ManagerState × SendResult :=
  match mlookup u s.connections with
  | none => (s, { success := false, error := some "Not connected to WhatsApp" })
  | some c =>
    if !c.isConnected then
      (s, { success := false, error := some "Not connected to WhatsApp" })
    else
      let jid := if dest.toList.contains '@' then dest
                 else dest ++ "@s.whatsapp.net"
      if !env.sendOk then
        (s, { success := false, error := some "Failed to send message" })
      else
        let s1 := { s with sentLog := s.sentLog ++ [(jid, content)] }
        match env.profile with
        | none => (s1, { success := true, messageId := env.engineMsgId })
        | some p =>
            ({ s1 with
               db := dbSaveMessage s1.db
                 { clinic_id := p.id, patient_id := none, phone := dest,
                   message_type := "outbound", content := messageTextOf content,
                   message_status := "sent",
                   whatsapp_message_id := env.engineMsgId } },
             { success := true, messageId := env.engineMsgId })

/-- Per-recipient external outcomes for a bulk send. -/
structure BulkEnv where
  sendOk : String → Bool
  engineMsgId : String → Option String
  profile : Option UserProfile

/-- One entry of the per-destination result list of `/api/send-bulk`. -/
structure BulkEntry where
  recipient : String
  success : Bool
  messageId : Option String := none
  error : Option String := none
deriving Repr, DecidableEq

/-- Observable scheduling of the bulk loop: each `sendMessage` call and
each `setTimeout` sleep, in program order. -/
inductive BulkAction where
  | send (recipient : String)
  | sleep (ms : Nat)
deriving Repr, DecidableEq

/-- The loop body of the `/api/send-bulk` handler: one single-send per
recipient in order, each followed by a sleep of `delayMs` when
`delayMs > 0`; collects one result entry per recipient. -/
def sendBulkLoop (env : BulkEnv) (s : ManagerState) (u : String)
    (recipients : List String) (message : String) (delayMs : Nat) :
    ManagerState × List BulkEntry × List BulkAction :=
  match recipients with
  | [] => (s, [], [])
  | r :: rest =>
    let step := sendMessage
      { sendOk := env.sendOk r, engineMsgId := env.engineMsgId r,
        profile := env.profile } s u r { text := some message }
    let tail := sendBulkLoop env step.1 u rest message delayMs
    (tail.1,
     { recipient := r, success := step.2.success,
       messageId := step.2.messageId, error := step.2.error } :: tail.2.1,
     (BulkAction.send r ::
       (if delayMs > 0 then [BulkAction.sleep delayMs] else [])) ++ tail.2.2)

/-- Aggregate response of `/api/send-bulk`. -/
structure BulkResponse where
  success : Bool
  sent : Nat
  failed : Nat
  results : List BulkEntry
deriving Repr, DecidableEq

/-- The `/api/send-bulk` route handler: the `delay` body field defaults
to 1000 ms, the loop runs, and the response carries the entry list plus
the counts of succeeded and failed entries. -/
def sendBulkRoute (env : BulkEnv) (s : ManagerState) (u : String)
    (recipients : List String) (message : String) (delayArg : Option Nat) :
    ManagerState × BulkResponse × List BulkAction :=
  let delayMs := delayArg.getD 1000
  let out := sendBulkLoop env s u recipients message delayMs
  (out.1,
   { success := true,
     sent := (out.2.1.filter (fun e => e.success)).length,
     failed := (out.2.1.filter (fun e => !e.success)).length,
     results := out.2.1 },
   out.2.2)

/-! ## Bootstrap restore and the event system -/

/-- One iteration of `restoreActiveSessions`: read the persisted
session status of the enumerated tenant and reconnect only when it
reads connected; `fail` tells whether the engine throws for that
tenant. -/
def restoreStep (fail : String → Bool) (st : ManagerState) (u : String) :
    ManagerState :=
  match dbGetSession st.db u with
  | some sess => if sess.is_connected then (connectUser (fail u) st u).1 else st
  | none => st

/-- `WhatsAppManager.restoreActiveSessions`: enumerate the on-disk
session directories once and run the restore step for each. -/
def restoreActiveSessions (fail : String → Bool) (s : ManagerState) :
    ManagerState :=
  s.sessionFiles.foldl (restoreStep fail) s

/-- The events and public operations that drive a session. -/
inductive Ev where
  | connect (u : String)
  | disconnect (u : String)
  | qrEv (u code : String)
  | openEv (u : String) (user : Option String)
  | closeEv (u : String) (code : Option Nat)
deriving Repr, DecidableEq

/-- Dispatch one event or operation against the manager state. -/
def stepEv (s : ManagerState) : Ev → ManagerState
  | .connect u => (connectUser false s u).1
  | .disconnect u => (disconnectUser s u).1
  | .qrEv u code => applyQR s u code
  | .openEv u user => applyOpen s u user
  | .closeEv u code => applyClose s u code

/-- Run a sequence of events from a state. -/
def runEvents (s : ManagerState) (evs : List Ev) : ManagerState :=
  evs.foldl stepEv s

/-- The manager state at process start. -/
def initState : ManagerState :=
  { connections := [], sessionFiles := [],
    db := { sessions := [], messages := [] },
    nextSocketId := 0, pendingReconnects := [],
    connectCalls := [], sentLog := [] }

/-! ## Fixtures for witnesses and counterexamples -/

def profile1 : UserProfile := { id := "clinic1" }

def connConnected : WAConnection :=
  { socketId := 7, qr := none, isConnected := true, userId := "u1",
    phoneNumber := some "5511999" }

def connPairing : WAConnection :=
  { socketId := 3, qr := some "data:image/png;base64,OLD",
    isConnected := false, userId := "u1", phoneNumber := none }

def dbOne : SupabaseState :=
  { sessions :=
      [{ user_id := "u1", is_connected := true, phone_number := some "5511999" }],
    messages := [] }

def stConnected : ManagerState :=
  { connections := [("u1", connConnected)], sessionFiles := ["u1"],
    db := dbOne, nextSocketId := 8, pendingReconnects := [],
    connectCalls := [], sentLog := [] }

def stPairing : ManagerState :=
  { connections := [("u1", connPairing)], sessionFiles := ["u1"],
    db := dbOne, nextSocketId := 8, pendingReconnects := [],
    connectCalls := [], sentLog := [] }

/-! ## Shared store lemmas -/

theorem dbUpdateSessionStatus_user (db : SupabaseState) (u : String) (b : Bool)
    (p : Option String) :
    ∀ r ∈ (dbUpdateSessionStatus db u b p).sessions, r.user_id = u →
      r.is_connected = b := by
  intro r hr hu
  simp only [dbUpdateSessionStatus, List.mem_map] at hr
  obtain ⟨r0, _, heq⟩ := hr
  by_cases h : r0.user_id = u
  · rw [← heq]; simp [h]
  · rw [← heq] at hu
    simp [h] at hu

/-! ## C1 -/

/-- C1 counterexample: with a session registered but still mid-pairing
(`isConnected = false`), `connectUser` reports success yet builds a
brand-new socket handle (fresh `socketId`) that replaces the existing
session, so a second connect during pairing does not observe the
in-progress session unchanged. -/
theorem connect_midPairing_replaces_cex :
    (connectUser false stPairing "u1").2.success = true ∧
    mlookup "u1" (connectUser false stPairing "u1").1.connections =
      some { socketId := 8, qr := none, isConnected := false,
             userId := "u1", phoneNumber := none } ∧
    mlookup "u1" stPairing.connections = some connPairing ∧
    ({ socketId := 8, qr := none, isConnected := false, userId := "u1",
       phoneNumber := none } : WAConnection) ≠ connPairing := by decide

/-- C1 amended: the idempotent short-circuit applies exactly to
`Connected` sessions: if the registered session is connected,
`connectUser` returns success ("Already connected") and changes nothing
but the call log; if a session is registered but not yet connected,
`connectUser` succeeds by building a fresh socket handle that replaces
the session in the registry. -/
theorem connectUser_existing_session (f : Bool) (s : ManagerState)
    (u : String) (c : WAConnection)
    (hc : mlookup u s.connections = some c) :
    (c.isConnected = true →
      connectUser f s u =
        ({ s with connectCalls := s.connectCalls ++ [u] },
         { success := true, message := some "Already connected" })) ∧
    (c.isConnected = false →
      mlookup u (connectUser false s u).1.connections =
        some { socketId := s.nextSocketId, qr := none, isConnected := false,
               userId := u, phoneNumber := none } ∧
      (connectUser false s u).1.nextSocketId = s.nextSocketId + 1 ∧
      (connectUser false s u).2 =
        { success := true, message := some "Connection initiated" }) := by
  constructor
  · intro h
    simp [connectUser, hc, h]
  · intro h
    simp [connectUser, hc, h, buildConnection, mlookup_mset_self]

theorem connectUser_existing_session_witness :
    connectUser true stConnected "u1" =
      ({ stConnected with connectCalls := stConnected.connectCalls ++ ["u1"] },
       { success := true, message := some "Already connected" }) :=
  (connectUser_existing_session true stConnected "u1" connConnected
    (by decide)).1 (by decide)

/-! ## C2 -/

theorem applyClose_db (s : ManagerState) (u : String) (code : Option Nat) :
    (applyClose s u code).db = dbUpdateSessionStatus s.db u false none := by
  by_cases hc : code = some loggedOutCode <;>
    cases hm : mlookup u s.connections <;>
      simp [applyClose, clearUserSession, hm, hc]

theorem applyClose_loggedOut_state (s : ManagerState) (u : String) :
    (applyClose s u (some loggedOutCode)).pendingReconnects =
      s.pendingReconnects ∧
    mlookup u (applyClose s u (some loggedOutCode)).connections = none ∧
    u ∉ (applyClose s u (some loggedOutCode)).sessionFiles := by
  cases hm : mlookup u s.connections <;>
    simp [applyClose, clearUserSession, hm, mlookup_mdel_self, List.mem_filter]

theorem applyClose_retry_state (s : ManagerState) (u : String)
    (code : Option Nat) (hcode : code ≠ some loggedOutCode) :
    (applyClose s u code).pendingReconnects =
      s.pendingReconnects ++ [(u, reconnectDelayMs)] ∧
    (applyClose s u code).sessionFiles = s.sessionFiles := by
  cases hm : mlookup u s.connections <;>
    simp [applyClose, clearUserSession, hm, hcode]

/-- C2: on a connection-close event with the logged-out status code the
session is removed from the registry, the on-disk credential directory
is deleted, no reconnection is scheduled, the persisted rows for the
tenant read disconnected and `getConnectionStatus` reports
connected=false; for every other status code exactly one reconnection
is scheduled with the fixed 5000 ms delay and the credentials stay. -/
theorem close_event_policy (s : ManagerState) (u : String) :
    ((applyClose s u (some loggedOutCode)).pendingReconnects =
       s.pendingReconnects ∧
     mlookup u (applyClose s u (some loggedOutCode)).connections = none ∧
     u ∉ (applyClose s u (some loggedOutCode)).sessionFiles ∧
     (getConnectionStatus (applyClose s u (some loggedOutCode)) u).connected =
       false ∧
     ∀ r ∈ (applyClose s u (some loggedOutCode)).db.sessions,
       r.user_id = u → r.is_connected = false) ∧
    ∀ code : Option Nat, code ≠ some loggedOutCode →
      (applyClose s u code).pendingReconnects =
        s.pendingReconnects ++ [(u, reconnectDelayMs)] ∧
      (applyClose s u code).sessionFiles = s.sessionFiles := by
  obtain ⟨h1, h2, h3⟩ := applyClose_loggedOut_state s u
  refine ⟨⟨h1, h2, h3, by simp [getConnectionStatus, h2], ?_⟩,
    fun code hcode => applyClose_retry_state s u code hcode⟩
  rw [applyClose_db]
  exact dbUpdateSessionStatus_user s.db u false none

theorem close_event_policy_witness :
    (applyClose stConnected "u1" (some 428)).pendingReconnects =
      stConnected.pendingReconnects ++ [("u1", reconnectDelayMs)] ∧
    (applyClose stConnected "u1" (some 428)).sessionFiles =
      stConnected.sessionFiles :=
  (close_event_policy stConnected "u1").2 (some 428) (by decide)

/-! ## C3 -/

/-- C3 counterexample: after an explicit `disconnectUser` of a connected
tenant, the close event raised by the teardown itself (no logged-out
status code, as `socket.end(undefined)` produces) schedules a
reconnection 5000 ms later, so a reconnection attempt is scheduled
after an explicit disconnect. -/
theorem disconnect_then_close_schedules_cex :
    (applyClose (disconnectUser stConnected "u1").1 "u1" none).pendingReconnects =
      [("u1", reconnectDelayMs)] := by decide

/-- C3 amended: explicit disconnect ends and removes the session, purges
the credential directory and marks the persisted status disconnected,
but it cancels no pending reconnection timer (the pending list is
untouched), and the close event raised by its own teardown — whose
status code is not logged-out — schedules one more reconnection with
the 5000 ms delay. -/
theorem disconnectUser_no_timer_cancellation (s : ManagerState) (u : String) :
    (disconnectUser s u).2 = true ∧
    mlookup u (disconnectUser s u).1.connections = none ∧
    u ∉ (disconnectUser s u).1.sessionFiles ∧
    (∀ r ∈ (disconnectUser s u).1.db.sessions, r.user_id = u →
       r.is_connected = false) ∧
    (disconnectUser s u).1.pendingReconnects = s.pendingReconnects ∧
    ∀ code : Option Nat, code ≠ some loggedOutCode →
      (applyClose (disconnectUser s u).1 u code).pendingReconnects =
        s.pendingReconnects ++ [(u, reconnectDelayMs)] := by
  have hdb : (disconnectUser s u).1.db = dbUpdateSessionStatus s.db u false none := by
    cases hm : mlookup u s.connections <;>
      simp [disconnectUser, clearUserSession, hm]
  have hpend : (disconnectUser s u).1.pendingReconnects = s.pendingReconnects := by
    cases hm : mlookup u s.connections <;>
      simp [disconnectUser, clearUserSession, hm]
  refine ⟨?_, ?_, ?_, ?_, hpend, ?_⟩
  · cases hm : mlookup u s.connections <;> simp [disconnectUser, hm]
  · cases hm : mlookup u s.connections with
    | none => simp [disconnectUser, clearUserSession, hm]
    | some c => simp [disconnectUser, clearUserSession, hm, mlookup_mdel_self]
  · cases hm : mlookup u s.connections <;>
      simp [disconnectUser, clearUserSession, hm, List.mem_filter]
  · rw [hdb]
    exact dbUpdateSessionStatus_user s.db u false none
  · intro code hcode
    rw [(applyClose_retry_state (disconnectUser s u).1 u code hcode).1, hpend]

theorem disconnectUser_no_timer_cancellation_witness :
    (applyClose (disconnectUser stConnected "u1").1 "u1" none).pendingReconnects =
      stConnected.pendingReconnects ++ [("u1", reconnectDelayMs)] :=
  (disconnectUser_no_timer_cancellation stConnected "u1").2.2.2.2.2 none
    (by decide)

/-! ## C5 -/

def c5Trace : List Ev :=
  [Ev.connect "u1", Ev.openEv "u1" (some "5511999@s.whatsapp.net"),
   Ev.qrEv "u1" "QR2"]

/-- C5 counterexample: a state reachable by connect, connection-open and
then a pairing-code event stores a non-empty pairing code and a
non-empty identity on the same session simultaneously: the qr branch
writes the code without checking state or clearing the phone number. -/
theorem qr_and_identity_both_nonempty_cex :
    mlookup "u1" (runEvents initState c5Trace).connections =
      some { socketId := 0, qr := some (toDataURL "QR2"), isConnected := true,
             userId := "u1", phoneNumber := some "5511999" } ∧
    toDataURL "QR2" ≠ "" ∧ ("5511999" : String) ≠ "" := by decide

/-- C5 amended: the pairing code is cleared the instant the session
becomes Connected — the connection-open handler erases the stored qr
and marks the session connected — but the mutual-exclusion invariant
fails in general, because a pairing-code event arriving afterwards
stores a code without clearing the identity. -/
theorem open_clears_pairing_code (s : ManagerState) (u : String)
    (user : Option String) (c : WAConnection)
    (h : mlookup u (applyOpen s u user).connections = some c) :
    c.qr = none ∧ c.isConnected = true := by
  cases hm : mlookup u s.connections with
  | none =>
      simp only [applyOpen, hm] at h
      exact Option.noConfusion h
  | some c0 =>
      simp only [applyOpen, hm, mlookup_mset_self, Option.some.injEq] at h
      rw [← h]
      exact ⟨rfl, rfl⟩

theorem open_clears_pairing_code_witness :
    ({ socketId := 3, qr := none, isConnected := true, userId := "u1",
       phoneNumber := some "x" } : WAConnection).qr = none ∧
    ({ socketId := 3, qr := none, isConnected := true, userId := "u1",
       phoneNumber := some "x" } : WAConnection).isConnected = true :=
  open_clears_pairing_code stPairing "u1" (some "x@y")
    { socketId := 3, qr := none, isConnected := true, userId := "u1",
      phoneNumber := some "x" } (by decide)

/-! ## C10 -/

/-- C10: explicit disconnect of a tenant with no session in the registry
still returns success, leaves the registry untouched, marks every
persisted session row of the tenant disconnected and removes its
credential directory when present. -/
theorem disconnect_absent_session (s : ManagerState) (u : String)
    (h : mlookup u s.connections = none) :
    (disconnectUser s u).2 = true ∧
    (disconnectUser s u).1.connections = s.connections ∧
    (∀ r ∈ (disconnectUser s u).1.db.sessions, r.user_id = u →
       r.is_connected = false) ∧
    u ∉ (disconnectUser s u).1.sessionFiles := by
  refine ⟨by simp [disconnectUser, h], by simp [disconnectUser, clearUserSession, h],
    ?_, by simp [disconnectUser, clearUserSession, h, List.mem_filter]⟩
  simpa [disconnectUser, clearUserSession, h] using
    dbUpdateSessionStatus_user s.db u false none

theorem disconnect_absent_session_witness :
    (disconnectUser stConnected "u2").2 = true ∧
    (disconnectUser stConnected "u2").1.connections = stConnected.connections ∧
    (∀ r ∈ (disconnectUser stConnected "u2").1.db.sessions,
       r.user_id = "u2" → r.is_connected = false) ∧
    "u2" ∉ (disconnectUser stConnected "u2").1.sessionFiles :=
  disconnect_absent_session stConnected "u2" (by decide)

/-! ## C6 -/

theorem isSome_of_jsTruthy (o : Option String) (h : jsTruthy o = true) :
    o.isSome = true := by
  cases o with
  | none => simp [jsTruthy] at h
  | some s => rfl

def inEnv1 : InEnv := { profile := some profile1, patientId := some "pat1" }

def stickerPayload : MsgPayload := {}

def stickerMsg : WAMsg :=
  { message := some stickerPayload, fromMe := false,
    remoteJid := "777@s.whatsapp.net", pushName := some "Bob",
    keyId := some "K1" }

/-- C6: a textual payload is extracted exactly when the envelope carries
direct text, extended text, or an image, video or document caption (in
the JS truthiness sense: present and non-empty); for every other
payload shape nothing is extracted and the incoming-message handler
leaves the state — in particular the persisted Message Records —
unchanged. -/
theorem extract_exactly_and_drop (m : MsgPayload) (env : InEnv)
    (s : ManagerState) (w : WAMsg) :
    ((extractMessageContent m).isSome =
      (jsTruthy m.conversation || jsTruthy m.extendedTextText ||
       jsTruthy m.imageCaption || jsTruthy m.videoCaption ||
       jsTruthy m.documentCaption)) ∧
    (w.message = some m → extractMessageContent m = none →
      handleIncomingMessage env s w = s) := by
  constructor
  · by_cases h1 : jsTruthy m.conversation
    · simp [extractMessageContent, h1, isSome_of_jsTruthy _ h1]
    · by_cases h2 : jsTruthy m.extendedTextText
      · simp [extractMessageContent, h1, h2, isSome_of_jsTruthy _ h2]
      · by_cases h3 : jsTruthy m.imageCaption
        · simp [extractMessageContent, h1, h2, h3, isSome_of_jsTruthy _ h3]
        · by_cases h4 : jsTruthy m.videoCaption
          · simp [extractMessageContent, h1, h2, h3, h4,
              isSome_of_jsTruthy _ h4]
          · by_cases h5 : jsTruthy m.documentCaption
            · simp [extractMessageContent, h1, h2, h3, h4, h5,
                isSome_of_jsTruthy _ h5]
            · simp [extractMessageContent, h1, h2, h3, h4, h5]
  · intro hw hx
    simp [handleIncomingMessage, hw, hx]

theorem extract_exactly_and_drop_witness :
    handleIncomingMessage inEnv1 stConnected stickerMsg = stConnected :=
  (extract_exactly_and_drop stickerPayload inEnv1 stConnected stickerMsg).2
    rfl rfl

/-! ## C7 -/

def dbMsgs : SupabaseState :=
  { sessions := [],
    messages :=
      [{ clinic_id := "clinic1", patient_id := none, phone := "111",
         message_type := "outbound", content := "hi",
         message_status := "sent", whatsapp_message_id := some "A" },
       { clinic_id := "clinic1", patient_id := none, phone := "222",
         message_type := "outbound", content := "yo",
         message_status := "sent", whatsapp_message_id := some "B" }] }

/-- C7 counterexample: a status update bearing a known engine message
id but the status 0 (ERROR, falsy in JS) is skipped entirely by the
`messages.update` handler — the store is unchanged even though a record
with that id exists and the by-id update would have changed it —
refuting the claim that every known-id status update updates exactly
that record. -/
theorem status_zero_update_skipped_cex :
    applyMessagesUpdate dbMsgs [{ keyId := "A", status := some 0 }] = dbMsgs ∧
    (∃ r ∈ dbMsgs.messages, r.whatsapp_message_id = some "A") ∧
    dbUpdateMessageStatus dbMsgs "A" (toString 0) ≠ dbMsgs := by decide

/-- C7 amended: a `messages.update` element updates the store only when
its status is truthy (present and non-zero): a non-zero status triggers
exactly the by-id store update, while an absent status — or the falsy
status 0 (ERROR), even for a known id — is silently skipped; the store
update rewrites exactly the records whose engine message id matches
(position by position, leaving every other record untouched), and when
no record carries the id the store is unchanged. -/
theorem updateMessageStatus_targets (db : SupabaseState) (mid status : String) :
    (∀ n : Nat, n ≠ 0 →
      applyMessagesUpdate db [{ keyId := mid, status := some n }] =
        dbUpdateMessageStatus db mid (toString n)) ∧
    applyMessagesUpdate db [{ keyId := mid, status := some 0 }] = db ∧
    applyMessagesUpdate db [{ keyId := mid, status := none }] = db ∧
    (dbUpdateMessageStatus db mid status).messages.length =
      db.messages.length ∧
    (∀ i : Nat, (dbUpdateMessageStatus db mid status).messages[i]? =
      (db.messages[i]?).map (fun r =>
        if r.whatsapp_message_id = some mid then
          { r with message_status := status }
        else r)) ∧
    ((∀ r ∈ db.messages, r.whatsapp_message_id ≠ some mid) →
      dbUpdateMessageStatus db mid status = db) := by
  refine ⟨?_, rfl, rfl, by simp [dbUpdateMessageStatus], ?_, ?_⟩
  · intro n hn
    simp [applyMessagesUpdate, hn]
  · intro i
    simp [dbUpdateMessageStatus]
  · intro h
    unfold dbUpdateMessageStatus
    have hmap : db.messages.map (fun r =>
        if r.whatsapp_message_id = some mid then
          { r with message_status := status }
        else r) = db.messages := by
      have := List.map_congr_left (l := db.messages)
        (f := fun r =>
          if r.whatsapp_message_id = some mid then
            { r with message_status := status }
          else r)
        (g := id) (fun r hr => by simp [h r hr])
      simpa using this
    rw [hmap]

theorem updateMessageStatus_targets_witness :
    applyMessagesUpdate dbMsgs [{ keyId := "A", status := some 3 }] =
      dbUpdateMessageStatus dbMsgs "A" (toString 3) ∧
    dbUpdateMessageStatus dbMsgs "C" "read" = dbMsgs :=
  ⟨(updateMessageStatus_targets dbMsgs "A" "read").1 3 (by decide),
   (updateMessageStatus_targets dbMsgs "C" "read").2.2.2.2.2 (by decide)⟩

/-! ## C8 -/

def sendEnvNoProfile : SendEnv :=
  { sendOk := true, engineMsgId := some "E1", profile := none }

def sendEnvFull : SendEnv :=
  { sendOk := true, engineMsgId := some "E2", profile := some profile1 }

/-- C8 counterexample: with a connected session but a null profile
lookup, the single-send invokes the socket primitive, reports success
and returns the engine message id, yet no Message Record at all is
persisted, contradicting the claim that every successful single-send
persists an outbound/sent record. -/
theorem send_success_without_record_cex :
    (sendMessage sendEnvNoProfile stConnected "u1" "555"
      { text := some "hi" }).2 =
      { success := true, messageId := some "E1", error := none } ∧
    (sendMessage sendEnvNoProfile stConnected "u1" "555"
      { text := some "hi" }).1.db.messages = [] := by decide

/-- C8 amended: for a connected session a successful single-send invokes
the socket send primitive on the normalized jid and returns success
with the engine-assigned id; the outbound/sent Message Record carrying
that id is persisted provided the tenant profile lookup succeeds (a
null profile skips persistence while still reporting success). -/
theorem sendMessage_success_persists (env : SendEnv) (s : ManagerState)
    (u dest : String) (content : MsgContent) (c : WAConnection)
    (p : UserProfile)
    (hc : mlookup u s.connections = some c) (hconn : c.isConnected = true)
    (hok : env.sendOk = true) (hp : env.profile = some p) :
    (sendMessage env s u dest content).2 =
      { success := true, messageId := env.engineMsgId, error := none } ∧
    (sendMessage env s u dest content).1.sentLog =
      s.sentLog ++ [((if dest.toList.contains '@' then dest
                      else dest ++ "@s.whatsapp.net"), content)] ∧
    (sendMessage env s u dest content).1.db.messages =
      s.db.messages ++
        [{ clinic_id := p.id, patient_id := none, phone := dest,
           message_type := "outbound", content := messageTextOf content,
           message_status := "sent",
           whatsapp_message_id := env.engineMsgId }] := by
  simp [sendMessage, hc, hconn, hok, hp, dbSaveMessage]

theorem sendMessage_success_persists_witness :
    (sendMessage sendEnvFull stConnected "u1" "555" { text := some "hi" }).2 =
      { success := true, messageId := sendEnvFull.engineMsgId,
        error := none } ∧
    (sendMessage sendEnvFull stConnected "u1" "555"
      { text := some "hi" }).1.sentLog =
      stConnected.sentLog ++
        [((if ("555" : String).toList.contains '@' then "555"
           else "555" ++ "@s.whatsapp.net"),
          ({ text := some "hi" } : MsgContent))] ∧
    (sendMessage sendEnvFull stConnected "u1" "555"
      { text := some "hi" }).1.db.messages =
      stConnected.db.messages ++
        [{ clinic_id := profile1.id, patient_id := none, phone := "555",
           message_type := "outbound",
           content := messageTextOf { text := some "hi" },
           message_status := "sent",
           whatsapp_message_id := sendEnvFull.engineMsgId }] :=
  sendMessage_success_persists sendEnvFull stConnected "u1" "555"
    { text := some "hi" } connConnected profile1 (by decide) (by decide)
    rfl rfl

/-! ## C9 -/

theorem connectUser_db (f : Bool) (s : ManagerState) (u : String) :
    (connectUser f s u).1.db = s.db := by
  cases hm : mlookup u s.connections with
  | none => by_cases hf : f <;> simp [connectUser, buildConnection, hm, hf]
  | some c =>
      by_cases hcon : c.isConnected <;> by_cases hf : f <;>
        simp [connectUser, buildConnection, hm, hcon, hf]

theorem connectUser_calls (f : Bool) (s : ManagerState) (u : String) :
    (connectUser f s u).1.connectCalls = s.connectCalls ++ [u] := by
  cases hm : mlookup u s.connections with
  | none => by_cases hf : f <;> simp [connectUser, buildConnection, hm, hf]
  | some c =>
      by_cases hcon : c.isConnected <;> by_cases hf : f <;>
        simp [connectUser, buildConnection, hm, hcon, hf]

/-- Whether the persisted session status of a tenant reads connected. -/
def connectedInDB (db : SupabaseState) (u : String) : Bool :=
  match dbGetSession db u with
  | some sess => sess.is_connected
  | none => false

theorem restoreStep_db (fail : String → Bool) (st : ManagerState)
    (u : String) : (restoreStep fail st u).db = st.db := by
  unfold restoreStep
  cases hg : dbGetSession st.db u with
  | none => rfl
  | some sess =>
      by_cases hcon : sess.is_connected <;> simp [hcon, connectUser_db]

theorem restoreStep_calls (fail : String → Bool) (st : ManagerState)
    (u : String) :
    (restoreStep fail st u).connectCalls =
      st.connectCalls ++ (if connectedInDB st.db u then [u] else []) := by
  unfold restoreStep connectedInDB
  cases hg : dbGetSession st.db u with
  | none => simp
  | some sess =>
      by_cases hcon : sess.is_connected <;> simp [hcon, connectUser_calls]

theorem restore_fold (fail : String → Bool) (d : SupabaseState) :
    ∀ (l : List String) (st : ManagerState), st.db = d →
      (l.foldl (restoreStep fail) st).connectCalls =
        st.connectCalls ++ l.filter (fun u => connectedInDB d u) := by
  intro l
  induction l with
  | nil => intro st _; simp
  | cons u t ih =>
    intro st hdb
    have hdb2 : (restoreStep fail st u).db = d := by rw [restoreStep_db, hdb]
    simp only [List.foldl_cons, List.filter_cons]
    rw [ih _ hdb2, restoreStep_calls, hdb]
    by_cases hcon : connectedInDB d u <;> simp [hcon, List.append_assoc]

/-- C9: bootstrap restore walks every enumerated tenant directory and
attempts a connect exactly for those whose persisted session status
reads connected, in enumeration order; an engine failure for one
tenant does not remove any later tenant's attempt. -/
theorem restore_attempts (fail : String → Bool) (s : ManagerState) :
    (restoreActiveSessions fail s).connectCalls =
      s.connectCalls ++
        s.sessionFiles.filter (fun u => connectedInDB s.db u) :=
  restore_fold fail s.db s.sessionFiles s rfl

/-! ## C4 -/

theorem sendMessage_connections (env : SendEnv) (s : ManagerState)
    (u dest : String) (content : MsgContent) :
    (sendMessage env s u dest content).1.connections = s.connections := by
  cases hm : mlookup u s.connections with
  | none => simp [sendMessage, hm]
  | some c =>
      by_cases hcon : c.isConnected <;> by_cases hok : env.sendOk <;>
        cases hp : env.profile <;>
          simp [sendMessage, hm, hcon, hok, hp, dbSaveMessage]

theorem sendMessage_result (env : SendEnv) (s : ManagerState)
    (u dest : String) (content : MsgContent) (c : WAConnection)
    (hc : mlookup u s.connections = some c) (hconn : c.isConnected = true) :
    (sendMessage env s u dest content).2 =
      (if env.sendOk then
        ({ success := true, messageId := env.engineMsgId,
           error := none } : SendResult)
       else
        { success := false, messageId := none,
          error := some "Failed to send message" }) := by
  by_cases hok : env.sendOk <;> cases hp : env.profile <;>
    simp [sendMessage, hc, hconn, hok, hp]

theorem sendBulkLoop_spec (env : BulkEnv) (u message : String)
    (delayMs : Nat) (c : WAConnection) :
    ∀ (recipients : List String) (s : ManagerState),
      mlookup u s.connections = some c → c.isConnected = true →
      (sendBulkLoop env s u recipients message delayMs).2.1 =
        recipients.map (fun r =>
          if env.sendOk r then
            { recipient := r, success := true,
              messageId := env.engineMsgId r, error := none }
          else
            { recipient := r, success := false, messageId := none,
              error := some "Failed to send message" }) ∧
      (sendBulkLoop env s u recipients message delayMs).2.2 =
        recipients.flatMap (fun r =>
          BulkAction.send r ::
            (if delayMs > 0 then [BulkAction.sleep delayMs] else [])) := by
  intro recipients
  induction recipients with
  | nil => intro s hc hconn; simp [sendBulkLoop]
  | cons r rest ih =>
    intro s hc hconn
    have hcons : (sendMessage
        { sendOk := env.sendOk r, engineMsgId := env.engineMsgId r,
          profile := env.profile } s u r
        { text := some message }).1.connections = s.connections :=
      sendMessage_connections _ s u r _
    have hc2 : mlookup u (sendMessage
        { sendOk := env.sendOk r, engineMsgId := env.engineMsgId r,
          profile := env.profile } s u r
        { text := some message }).1.connections = some c := by
      rw [hcons]; exact hc
    obtain ⟨ih1, ih2⟩ := ih _ hc2 hconn
    have hres := sendMessage_result
      { sendOk := env.sendOk r, engineMsgId := env.engineMsgId r,
        profile := env.profile } s u r { text := some message } c hc hconn
    constructor
    · simp only [sendBulkLoop, List.map_cons]
      rw [ih1, hres]
      by_cases hok : env.sendOk r <;> simp [hok]
    · simp only [sendBulkLoop, List.flatMap_cons]
      rw [ih2]

theorem length_filter_map_entry (g : String → BulkEntry)
    (q : BulkEntry → Bool) (l : List String) :
    (List.filter q (l.map g)).length =
      (List.filter (fun r => q (g r)) l).length := by
  induction l with
  | nil => rfl
  | cons a t ih => by_cases h : q (g a) <;> simp [h, ih]

/-- C4: with a connected session, bulk send issues the single-sends
strictly sequentially in destination order, sleeping the
caller-specified delay (default 1000 ms) after each send when positive,
returns one result entry per destination, aggregates the sent and
failed counts, and a failed destination does not prevent the later
attempts — every destination gets its entry. -/
theorem sendBulk_sequential (env : BulkEnv) (s : ManagerState) (u : String)
    (recipients : List String) (message : String) (delayArg : Option Nat)
    (c : WAConnection)
    (hc : mlookup u s.connections = some c) (hconn : c.isConnected = true) :
    (sendBulkRoute env s u recipients message delayArg).2.1.results =
      recipients.map (fun r =>
        if env.sendOk r then
          { recipient := r, success := true,
            messageId := env.engineMsgId r, error := none }
        else
          { recipient := r, success := false, messageId := none,
            error := some "Failed to send message" }) ∧
    (sendBulkRoute env s u recipients message delayArg).2.1.sent =
      (recipients.filter (fun r => env.sendOk r)).length ∧
    (sendBulkRoute env s u recipients message delayArg).2.1.failed =
      (recipients.filter (fun r => !env.sendOk r)).length ∧
    (sendBulkRoute env s u recipients message delayArg).2.2 =
      recipients.flatMap (fun r =>
        BulkAction.send r ::
          (if delayArg.getD 1000 > 0 then
            [BulkAction.sleep (delayArg.getD 1000)]
           else [])) := by
  obtain ⟨h1, h2⟩ := sendBulkLoop_spec env u message (delayArg.getD 1000) c
    recipients s hc hconn
  refine ⟨by simpa [sendBulkRoute] using h1, ?_, ?_,
    by simpa [sendBulkRoute] using h2⟩
  · have : (sendBulkRoute env s u recipients message delayArg).2.1.sent =
        (List.filter (fun e => e.success)
          (sendBulkLoop env s u recipients message
            (delayArg.getD 1000)).2.1).length := rfl
    rw [this, h1, length_filter_map_entry]
    apply congrArg
    apply List.filter_congr
    intro r _
    by_cases hok : env.sendOk r <;> simp [hok]
  · have : (sendBulkRoute env s u recipients message delayArg).2.1.failed =
        (List.filter (fun e => !e.success)
          (sendBulkLoop env s u recipients message
            (delayArg.getD 1000)).2.1).length := rfl
    rw [this, h1, length_filter_map_entry]
    apply congrArg
    apply List.filter_congr
    intro r _
    by_cases hok : env.sendOk r <;> simp [hok]

def bulkEnv1 : BulkEnv :=
  { sendOk := fun r => r != "222", engineMsgId := fun r => some ("m" ++ r),
    profile := some profile1 }

theorem sendBulk_sequential_witness :
    (sendBulkRoute bulkEnv1 stConnected "u1" ["111", "222"] "hi"
      (some 0)).2.1.sent = 1 ∧
    (sendBulkRoute bulkEnv1 stConnected "u1" ["111", "222"] "hi"
      (some 0)).2.1.failed = 1 ∧
    (sendBulkRoute bulkEnv1 stConnected "u1" ["111", "222"] "hi"
      (some 0)).2.1.results.length = 2 := by
  have h := sendBulk_sequential bulkEnv1 stConnected "u1" ["111", "222"]
    "hi" (some 0) connConnected (by decide) (by decide)
  refine ⟨h.2.1.trans (by decide), h.2.2.1.trans (by decide), ?_⟩
  rw [h.1]
  decide

end Oxy
